import Mathlib

/-
Verification development for the Invisible Art Gallery repository.

The data model and the frontend operations are embedded from the TypeScript
sources (Upload.tsx, EditArtwork.tsx, the Dashboard component, the
CommentSection component, services/api.ts).  The backend condition
evaluator and reveal notifier are not among the provided sources (only
their documentation and callers are); those parts are modelled from the
specification, as marked in their doc comments.
-/

/-- Condition payload object as built by `initializeCondition` in
Upload.tsx: a JS object holding at most one of the keys `reveal_at`,
`count`, `comment_count`.  Timestamps are modelled as integer milliseconds
since the epoch (JS `Date` time values). -/
structure ConditionValue where
  reveal_at : Option Int := none
  count : Option Nat := none
  comment_count : Option Nat := none
deriving DecidableEq

/-- RevealCondition as it appears throughout the frontend: a string
`condition_type` tag and a `condition_value` object.  The value is an
`Option` because the upload form validation (`uploadSchema`) treats a
missing `condition_value` as a rejectable state. -/
structure RevealCondition where
  condition_type : String
  condition_value : Option ConditionValue
deriving DecidableEq

/-- Comment attached to an artwork; the dashboard and the evaluator only
use the number of comments, the comment section uses the content. -/
structure Comment where
  content : String
deriving DecidableEq

/-- Artwork record as consumed by the Dashboard component: identifier,
display fields, the `is_revealed` flag, the `view_count` counter, the
creation timestamp (integer milliseconds), the list of reveal conditions
and the list of comments. -/
structure Artwork where
  id : Nat
  title : String
  description : String
  image_url : String
  placeholder_image : Option String
  is_revealed : Bool
  view_count : Nat
  created_at : Int
  reveal_conditions : List RevealCondition
  comments : List Comment
deriving DecidableEq

/-- The three condition type tags accepted by the upload form's Yup
schema (`uploadSchema` in Upload.tsx, the `oneOf` clause). -/
def validConditionTypes : List String := ["time", "view_count", "interactive"]

/-- Embedding of `initializeCondition` from Upload.tsx (lines 111-145):
a switch on the type string producing a default condition payload.  For
`time` the default reveal date is 7 days from now (JS
`date.setDate(date.getDate() + 7)`, i.e. `now + 7 * 86400000` ms); for
`view_count` the default count is 100; for `interactive` the default
comment count is 10; any other string falls to the default branch, a time
condition at the current instant.  (The JS code serialises the date with
`toISOString().slice(0, 16)`; we keep the underlying time value.) -/
def initializeCondition (now : Int) (t : String) : RevealCondition :=
  if t = "time" then
    { condition_type := "time",
      condition_value := some { reveal_at := some (now + 7 * 86400000) } }
  else if t = "view_count" then
    { condition_type := "view_count", condition_value := some { count := some 100 } }
  else if t = "interactive" then
    { condition_type := "interactive",
      condition_value := some { comment_count := some 10 } }
  else
    { condition_type := "time", condition_value := some { reveal_at := some now } }

/-- Per-condition part of the Yup `uploadSchema` in Upload.tsx:
`condition_type` is required and must be one of the three known tags, and
`condition_value` is required (must be present). -/
def conditionSchemaValid (c : RevealCondition) : Bool :=
  (c.condition_type == "time" || c.condition_type == "view_count" ||
    c.condition_type == "interactive") && c.condition_value.isSome

/-- The upload form state as submitted (Upload.tsx Formik values).  Files
are modelled by their names; a missing file is `none`. -/
structure SubmittedUploadForm where
  title : String
  description : String
  content_type : String
  artwork_file : Option String
  placeholder_image : Option String
  reveal_conditions : List RevealCondition
deriving DecidableEq

/-- Embedding of the Yup `uploadSchema` from Upload.tsx (lines 35-55):
title required and at most 255 characters, description at most 1000
characters, content type required, artwork file required, every reveal
condition well formed, and at least one reveal condition. -/
def uploadSchemaValid (f : SubmittedUploadForm) : Bool :=
  !(f.title == "") && decide (f.title.length ≤ 255) &&
    decide (f.description.length ≤ 1000) && !(f.content_type == "") &&
    f.artwork_file.isSome && f.reveal_conditions.all conditionSchemaValid &&
    decide (1 ≤ f.reveal_conditions.length)

/-- Request body assembled by `handleSubmit` in Upload.tsx and sent by
`apiService.artworks.create` (services/api.ts). -/
structure ArtworkCreateRequest where
  title : String
  description : String
  content_type : String
  artwork_file : String
  placeholder_image : Option String
  reveal_conditions : List RevealCondition
deriving DecidableEq

/-- The upload submission pipeline: Formik runs `uploadSchema` as the
`validationSchema` and only invokes `handleSubmit` (which calls
`apiService.artworks.create`) when validation passes.  The result is the
create request that goes out, or `none` when validation fails and no
request is issued. -/
def submitUpload (f : SubmittedUploadForm) : Option ArtworkCreateRequest :=
  if uploadSchemaValid f then
    match f.artwork_file with
    | some file =>
        some { title := f.title, description := f.description,
               content_type := f.content_type, artwork_file := file,
               placeholder_image := f.placeholder_image,
               reveal_conditions := f.reveal_conditions }
    | none => none
  else none

/-- Metrics snapshot the evaluator reads: current wall-clock time
(integer milliseconds), current view count, current comment count. -/
structure ArtworkMetrics where
  currentTime : Int
  viewCount : Nat
  commentCount : Nat
deriving DecidableEq

/-- Modelled from the spec: the backend Condition Evaluator's well-formed
condition input (the closed sum over {time, view_count, interactive} of
section 4.1 and the design note of section 9).  The backend implementation
is not among the provided sources. -/
inductive EvalCondition where
  | time (reveal_at : Int)
  | viewCount (threshold : Nat)
  | interactive (commentThreshold : Nat)
deriving DecidableEq

/-- Modelled from the spec: the backend Condition Evaluator
`evaluate(artwork_metrics, condition) -> bool` (section 4.1), whose
implementation is not among the provided sources.  Time variant: true iff
current time is at least the configured reveal timestamp; view-count
variant: true iff the current view count is at least the threshold;
interactive variant: true iff the current comment count is at least the
comment threshold.  It is a total Lean function, hence a pure predicate
with no error outcome. -/
def evaluate (m : ArtworkMetrics) : EvalCondition → Bool
  | .time r => decide (r ≤ m.currentTime)
  | .viewCount n => decide (n ≤ m.viewCount)
  | .interactive n => decide (n ≤ m.commentCount)

/-- Translation of a stored (stringly tagged) condition into the
evaluator's sum type; `none` when the tag is unknown or the matching key
is absent.  This is the well-formedness boundary of section 7: creation
validation guarantees the evaluator sees well-formed input. -/
def toEvalCondition (c : RevealCondition) : Option EvalCondition :=
  match c.condition_value with
  | none => none
  | some v =>
    if c.condition_type = "time" then v.reveal_at.map EvalCondition.time
    else if c.condition_type = "view_count" then v.count.map EvalCondition.viewCount
    else if c.condition_type = "interactive" then
      v.comment_count.map EvalCondition.interactive
    else none

/-- Metrics of an artwork at a given instant. -/
def metricsOf (now : Int) (a : Artwork) : ArtworkMetrics :=
  { currentTime := now, viewCount := a.view_count,
    commentCount := a.comments.length }

/-- Modelled from the spec: the reveal check the backend performs on an
artwork (section 3 treats the first condition as authoritative; section
4.1 gives the evaluator contract).  The backend implementation is not
among the provided sources. -/
def conditionMet (now : Int) (a : Artwork) : Bool :=
  match a.reveal_conditions.head?.bind toEvalCondition with
  | some c => evaluate (metricsOf now a) c
  | none => false

/-- Modelled from the spec: the transient NotificationEvent of section 3,
a tagged variant over {artwork_revealed, new_comment, view_milestone}
created by the Reveal Notifier.  The backend implementation is not among
the provided sources. -/
inductive NotificationEvent where
  | artworkRevealedEvent (artwork_id : Nat)
  | newCommentEvent (artwork_id : Nat) (content : String)
  | viewMilestoneEvent (artwork_id : Nat) (new_count : Nat)
deriving DecidableEq

/-- Modelled from the spec: the configured view-milestone thresholds
(section 4.2 and the websockets README both give 10/50/100). -/
def viewMilestones : List Nat := [10, 50, 100]

/-- Modelled from the spec: the transition path of section 4.1's side
effect policy, whose backend implementation is not among the provided
sources — the caller persists the `is_revealed := true` transition and
invokes the Notifier exactly once per transition, guarded by the
monotonic flag: an already revealed artwork is left unchanged and no
notification fires. -/
def revealTransition (now : Int) (a : Artwork) : Artwork × List NotificationEvent :=
  if a.is_revealed then (a, [])
  else if conditionMet now a then
    ({ a with is_revealed := true }, [NotificationEvent.artworkRevealedEvent a.id])
  else (a, [])

/-- Operations that touch an artwork: a page view (increments
`view_count`, then the evaluator re-checks), a comment submission
(appends a comment, then the evaluator re-checks), a bare evaluator
re-check, and the owner's update from EditArtwork.tsx `handleSubmit`
(lines 106-136), whose payload holds only title, description and
placeholder image. -/
inductive GalleryOp where
  | view (now : Int)
  | addComment (now : Int) (c : Comment)
  | evalCheck (now : Int)
  | update (title description : String) (placeholder : Option String)
deriving DecidableEq

/-- One viewer/owner action applied to an artwork, following the control
flow of section 2: a metric update, then the evaluator re-check, with the
notifications emitted along the way.  The view path also emits a
view-milestone notification when the new count is a configured milestone;
the comment path emits a new-comment notification.  The update path is
the embedding of EditArtwork.tsx `handleSubmit`: it writes only title,
description and placeholder image, and emits nothing. -/
def applyOp (a : Artwork) : GalleryOp → Artwork × List NotificationEvent
  | .view now =>
    let a' := { a with view_count := a.view_count + 1 }
    let r := revealTransition now a'
    (r.1,
      (if viewMilestones.contains a'.view_count then
        [NotificationEvent.viewMilestoneEvent a.id a'.view_count]
      else []) ++ r.2)
  | .addComment now c =>
    let a' := { a with comments := a.comments ++ [c] }
    let r := revealTransition now a'
    (r.1, NotificationEvent.newCommentEvent a.id c.content :: r.2)
  | .evalCheck now => revealTransition now a
  | .update t d p =>
    ({ a with title := t, description := d, placeholder_image := p }, [])

/-- Run a sequence of operations on an artwork, collecting the emitted
notifications in order. -/
def runOps (a : Artwork) : List GalleryOp → Artwork × List NotificationEvent
  | [] => (a, [])
  | op :: ops =>
    let r := applyOp a op
    let r' := runOps r.1 ops
    (r'.1, r.2 ++ r'.2)

/-- Recogniser for the artwork_revealed notification. -/
def isRevealedEvent : NotificationEvent → Bool
  | .artworkRevealedEvent _ => true
  | _ => false

/-- Number of artwork_revealed notifications in an emitted event list. -/
def revealedEventCount (evs : List NotificationEvent) : Nat :=
  (evs.filter isRevealedEvent).length

/-- Dashboard stats record (the `stats` state of the Dashboard
component). -/
structure Stats where
  totalArtworks : Nat
  totalViews : Nat
  totalReveals : Nat
  totalComments : Nat
deriving DecidableEq

/-- Stats calculation of the Dashboard component (source lines 98-109):
total artworks is the list length, total views the sum of the view
counts, total reveals the number of revealed artworks, total comments the
sum of the comment list lengths. -/
def computeStats (as : List Artwork) : Stats :=
  { totalArtworks := as.length,
    totalViews := (as.map (fun a => a.view_count)).sum,
    totalReveals := (as.filter (fun a => a.is_revealed)).length,
    totalComments := (as.map (fun a => a.comments.length)).sum }

/-- Embedding of `handleDeleteArtwork` in the Dashboard component (source
lines 130-154), given a successful delete request: the artworks list is
filtered to drop the deleted id, and the stats are decremented by the
deleted artwork's contributions (looked up with `find` on the previous
list); when no artwork with that id is found the stats are left
unchanged. -/
def handleDeleteArtwork (artworks : List Artwork) (stats : Stats)
    (artworkId : Nat) : List Artwork × Stats :=
  let artworks' := artworks.filter (fun a => !(a.id == artworkId))
  match artworks.find? (fun a => a.id == artworkId) with
  | some d =>
    (artworks',
      { totalArtworks := stats.totalArtworks - 1,
        totalViews := stats.totalViews - d.view_count,
        totalReveals :=
          if d.is_revealed then stats.totalReveals - 1 else stats.totalReveals,
        totalComments := stats.totalComments - d.comments.length })
  | none => (artworks', stats)

/-- Rendering outcome of `formatRevealCondition` in the Dashboard
component (source lines 157-213), keeping the data each branch puts on
screen: the Revealed chip, the 'Unknown' text when there is no first
condition, the time chip with its reveal date, the view / comment
progress chips with the displayed counts and thresholds, and the 'Custom
condition' default branch. -/
inductive ConditionDisplay where
  | revealedChip
  | unknown
  | timeChip (reveal_at : Option Int)
  | viewProgressChip (views : Nat) (threshold : Option Nat)
  | commentProgressChip (comments : Nat) (threshold : Option Nat)
  | customCondition
deriving DecidableEq

/-- Embedding of `formatRevealCondition` from the Dashboard component
(source lines 157-213): revealed artworks get the Revealed chip;
otherwise the FIRST condition (`reveal_conditions[0]`) is examined —
'Unknown' when absent, then a switch on `condition_type` with a default
branch.  The JS code reads `condition_value.reveal_at` / `.count` /
`.comment_count` directly, assuming the key present; the embedding
carries the raw optional field. -/
def formatRevealCondition (a : Artwork) : ConditionDisplay :=
  if a.is_revealed then .revealedChip
  else
    match a.reveal_conditions.head? with
    | none => .unknown
    | some c =>
      if c.condition_type = "time" then
        .timeChip (c.condition_value.bind (fun v => v.reveal_at))
      else if c.condition_type = "view_count" then
        .viewProgressChip a.view_count (c.condition_value.bind (fun v => v.count))
      else if c.condition_type = "interactive" then
        .commentProgressChip a.comments.length
          (c.condition_value.bind (fun v => v.comment_count))
      else .customCondition

/-- Embedding of the completion percentage computed in the Dashboard
analytics tab (source lines 446-467): 100 for a revealed artwork,
otherwise a switch on the FIRST condition — time: elapsed duration over
total duration, floored, capped at 100; view_count: view count over the
threshold; interactive: comment count over the comment threshold; 0 when
there is no first condition or the tag is unknown.  Exact integer floor
division stands in for the JS double arithmetic
(`Math.floor((x / y) * 100)`), and a missing value key (which JS would
turn into NaN) is rendered as 0. -/
def completionPercentage (now : Int) (a : Artwork) : Int :=
  if a.is_revealed then 100
  else
    match a.reveal_conditions.head? with
    | none => 0
    | some c =>
      if c.condition_type = "time" then
        match c.condition_value.bind (fun v => v.reveal_at) with
        | some r =>
          min 100 (Int.fdiv ((now - a.created_at) * 100) (r - a.created_at))
        | none => 0
      else if c.condition_type = "view_count" then
        match c.condition_value.bind (fun v => v.count) with
        | some n => min 100 ((a.view_count * 100) / n : Nat)
        | none => 0
      else if c.condition_type = "interactive" then
        match c.condition_value.bind (fun v => v.comment_count) with
        | some n => min 100 ((a.comments.length * 100) / n : Nat)
        | none => 0
      else 0

/-- Executable model of the JS `String.prototype.trim`: strip leading
and trailing whitespace characters. -/
def jsTrim (s : String) : String :=
  String.mk
    (((s.toList.dropWhile Char.isWhitespace).reverse.dropWhile
        Char.isWhitespace).reverse)

/-- Comment creation request body (`CommentCreate` in the frontend
types, as assembled by the CommentSection submit handler). -/
structure CommentCreate where
  artwork_id : Nat
  content : String
deriving DecidableEq

/-- Local state of the CommentSection component. -/
structure CommentSectionState where
  commentText : String
  isSubmitting : Bool
  error : Option String
  commentAdded : Bool
deriving DecidableEq

/-- Outcome of the `addComment` API call. -/
inductive ApiResult where
  | ok (c : Comment)
  | err (msg : String)
deriving DecidableEq

/-- Embedding of `handleSubmit` in the CommentSection component (source
lines 54-85): when the trimmed comment text is empty the handler returns
immediately (no request, state untouched); otherwise exactly one request
is sent whose body has the artwork id and the trimmed content, and the
state is updated on success (text cleared, added flag set) or failure
(error recorded).  The second component lists the requests issued. -/
def handleSubmitComment (artworkId : Nat) (s : CommentSectionState)
    (api : CommentCreate → ApiResult) : CommentSectionState × List CommentCreate :=
  if jsTrim s.commentText = "" then (s, [])
  else
    let req : CommentCreate :=
      { artwork_id := artworkId, content := jsTrim s.commentText }
    match api req with
    | .ok _ =>
      ({ s with
          commentText := ""
          isSubmitting := false
          error := none
          commentAdded := true }, [req])
    | .err m =>
      ({ s with
          isSubmitting := false
          error := some m
          commentAdded := false }, [req])

/-- Nested payload of a `notification` wire message, per the message
catalog in backend/websockets/README.md and the event handlers it lists
(`notify_new_comment`, `notify_new_view`, `notify_artwork_revealed`). -/
inductive NotificationData where
  | newComment (artwork_id comment_id : Nat) (user : String)
  | viewMilestone (artwork_id : Nat) (view_count : Nat)
  | artworkRevealedData (artwork_id : Nat)
deriving DecidableEq

/-- Discriminator string of a nested notification payload (the
`data.type` field in the wire JSON). -/
def NotificationData.dataType : NotificationData → String
  | .newComment .. => "new_comment"
  | .viewMilestone .. => "view_milestone"
  | .artworkRevealedData .. => "artwork_revealed"

/-- Messages placed on the wire over the two WebSocket channels, per the
Message Types catalog of backend/websockets/README.md (the consumers'
implementation is not among the provided sources) and the client switch
in scripts/websocket_client_example.js: the artwork socket sends
`artwork_status` on connect and `artwork_revealed` on a transition; the
notifications socket sends `welcome` on connect and `notification` with a
nested typed payload. -/
inductive WireMessage where
  | artworkStatus (is_revealed : Bool) (artwork_id : Nat) (title : String)
  | artworkRevealed (artwork_id : Nat) (title artist : String)
  | welcome (message : String)
  | notification (message : String) (data : NotificationData)
deriving DecidableEq

/-- The `type` discriminator of a wire message. -/
def WireMessage.wireType : WireMessage → String
  | .artworkStatus .. => "artwork_status"
  | .artworkRevealed .. => "artwork_revealed"
  | .welcome .. => "welcome"
  | .notification .. => "notification"

/-- C1: for every artwork metrics tuple (current time, view count,
comment count) and every reveal condition, `evaluate` returns true iff
the metric selected by the condition's tag meets its threshold — time:
current time at least the configured reveal timestamp; view_count:
current view count at least the configured count; interactive: current
comment count at least the configured comment threshold.  `evaluate` is a
total function of its two arguments, hence a pure predicate with no error
outcome. -/
theorem evaluate_selects_metric_by_tag (m : ArtworkMetrics) :
    (∀ r : Int, evaluate m (EvalCondition.time r) = true ↔ r ≤ m.currentTime)
  ∧ (∀ n : Nat, evaluate m (EvalCondition.viewCount n) = true ↔ n ≤ m.viewCount)
  ∧ (∀ n : Nat,
      evaluate m (EvalCondition.interactive n) = true ↔ n ≤ m.commentCount) := by
  refine ⟨fun r => ?_, fun n => ?_, fun n => ?_⟩ <;> simp [evaluate]

/-- C5: for a view-count condition of threshold n, `evaluate` is true iff
the view count is at least n, and the result is monotone in the view
count: if it is true at the smaller view count it is true at the larger
one, so once true it stays true as views only increase. -/
theorem evaluate_view_count_monotone (m₁ m₂ : ArtworkMetrics) (n : Nat)
    (h : m₁.viewCount ≤ m₂.viewCount) :
    (evaluate m₁ (EvalCondition.viewCount n) = true ↔ n ≤ m₁.viewCount)
  ∧ (evaluate m₁ (EvalCondition.viewCount n) = true →
      evaluate m₂ (EvalCondition.viewCount n) = true) := by
  constructor
  · simp [evaluate]
  · intro h₁
    simp only [evaluate, decide_eq_true_eq] at h₁ ⊢
    exact le_trans h₁ h

/-- Witness for C5 at the spec's concrete scenario A figures: threshold
100, view counts 100 and 150. -/
theorem evaluate_view_count_monotone_witness :
    (evaluate ⟨0, 100, 0⟩ (EvalCondition.viewCount 100) = true ↔ 100 ≤ 100)
  ∧ (evaluate ⟨0, 100, 0⟩ (EvalCondition.viewCount 100) = true →
      evaluate ⟨0, 150, 0⟩ (EvalCondition.viewCount 100) = true) :=
  evaluate_view_count_monotone ⟨0, 100, 0⟩ ⟨0, 150, 0⟩ 100 (by decide)

/-- C8: `initializeCondition` is total and always yields a well-formed
condition: the three known tags produce their matching payload key with
the source's defaults (time: reveal in 7 days; view_count: 100;
interactive: 10), any other string falls back to a time condition at the
current instant, and in every case the condition type is one of the three
known tags and the condition value object is present. -/
theorem initializeCondition_wellformed (now : Int) :
    initializeCondition now "time"
      = { condition_type := "time",
          condition_value :=
            some { reveal_at := some (now + 7 * 86400000), count := none,
                   comment_count := none } }
  ∧ initializeCondition now "view_count"
      = { condition_type := "view_count",
          condition_value :=
            some { reveal_at := none, count := some 100, comment_count := none } }
  ∧ initializeCondition now "interactive"
      = { condition_type := "interactive",
          condition_value :=
            some { reveal_at := none, count := none, comment_count := some 10 } }
  ∧ (∀ t : String, t ≠ "time" → t ≠ "view_count" → t ≠ "interactive" →
      initializeCondition now t
        = { condition_type := "time",
            condition_value :=
              some { reveal_at := some now, count := none,
                     comment_count := none } })
  ∧ (∀ t : String,
      (initializeCondition now t).condition_type ∈ validConditionTypes
    ∧ (initializeCondition now t).condition_value.isSome = true) := by
  refine ⟨rfl, rfl, rfl, fun t h₁ h₂ h₃ => ?_, fun t => ?_⟩
  · simp [initializeCondition, h₁, h₂, h₃]
  · unfold initializeCondition
    split
    · simp [validConditionTypes]
    · split
      · simp [validConditionTypes]
      · split <;> simp [validConditionTypes]

/-- Witness for C8 at an unknown tag string, exercising the default
branch. -/
theorem initializeCondition_wellformed_witness :
    initializeCondition 0 "custom"
      = { condition_type := "time",
          condition_value :=
            some { reveal_at := some 0, count := none, comment_count := none } } :=
  (initializeCondition_wellformed 0).2.2.2.1 "custom" (by decide) (by decide)
    (by decide)

/-- C10: comment submission is guarded on non-whitespace content — on an
empty trimmed text no request is made and the state is unchanged; on a
non-empty trimmed text exactly one request is sent, with the artwork id
from the prop and the trimmed text as content. -/
theorem handleSubmitComment_guarded (artworkId : Nat)
    (s : CommentSectionState) (api : CommentCreate → ApiResult) :
    (jsTrim s.commentText = "" →
      handleSubmitComment artworkId s api = (s, []))
  ∧ (jsTrim s.commentText ≠ "" →
      (handleSubmitComment artworkId s api).2
        = [{ artwork_id := artworkId, content := jsTrim s.commentText }]) := by
  constructor
  · intro h
    simp [handleSubmitComment, h]
  · intro h
    unfold handleSubmitComment
    simp only [h, if_false]
    split <;> rfl

/-- Witness for C10: an all-whitespace submission issues no request and
leaves the state unchanged. -/
theorem handleSubmitComment_guarded_witness :
    handleSubmitComment 1 ⟨"   ", false, none, false⟩
        (fun _ => ApiResult.ok ⟨"x"⟩)
      = (⟨"   ", false, none, false⟩, []) :=
  (handleSubmitComment_guarded 1 ⟨"   ", false, none, false⟩
    (fun _ => ApiResult.ok ⟨"x"⟩)).1 (by decide)

/-- Reveal budget of an artwork: 1 while hidden, 0 once revealed. -/
def revealPotential (a : Artwork) : Nat := if a.is_revealed then 0 else 1

/-- One transition check consumes at most the artwork's reveal budget:
the artwork_revealed notifications it emits plus the remaining budget
never exceed the budget before the check. -/
theorem revealTransition_budget (now : Int) (a : Artwork) :
    revealedEventCount (revealTransition now a).2
      + revealPotential (revealTransition now a).1 ≤ revealPotential a := by
  unfold revealTransition
  split
  · simp_all [revealPotential, revealedEventCount]
  · split
    · simp_all [revealPotential, revealedEventCount, isRevealedEvent]
    · simp [revealPotential, revealedEventCount]

/-- The reveal-transition check never turns the flag off. -/
theorem revealTransition_mono (now : Int) (a : Artwork)
    (h : a.is_revealed = true) : (revealTransition now a).1.is_revealed = true := by
  simp [revealTransition, h]

/-- A single operation never turns the `is_revealed` flag off. -/
theorem applyOp_is_revealed_mono (a : Artwork) (op : GalleryOp)
    (h : a.is_revealed = true) : (applyOp a op).1.is_revealed = true := by
  cases op with
  | view now => exact revealTransition_mono now _ h
  | addComment now c => exact revealTransition_mono now _ h
  | evalCheck now => exact revealTransition_mono now _ h
  | update t d p => simpa [applyOp] using h

/-- A single operation consumes at most the artwork's reveal budget. -/
theorem applyOp_reveal_budget (a : Artwork) (op : GalleryOp) :
    revealedEventCount (applyOp a op).2 + revealPotential (applyOp a op).1
      ≤ revealPotential a := by
  cases op with
  | view now =>
    have hb := revealTransition_budget now { a with view_count := a.view_count + 1 }
    simp only [applyOp, revealedEventCount, List.filter_append,
      List.length_append] at hb ⊢
    have hmil :
        (List.filter isRevealedEvent
          (if viewMilestones.contains (a.view_count + 1) then
            [NotificationEvent.viewMilestoneEvent a.id (a.view_count + 1)]
          else [])).length = 0 := by
      split <;> simp [isRevealedEvent]
    rw [hmil]
    simpa [revealPotential, revealedEventCount] using hb
  | addComment now c =>
    have hb := revealTransition_budget now { a with comments := a.comments ++ [c] }
    simp only [applyOp, revealedEventCount, List.filter_cons] at hb ⊢
    simpa [revealPotential, revealedEventCount, isRevealedEvent] using hb
  | evalCheck now => exact revealTransition_budget now a
  | update t d p => simp [applyOp, revealedEventCount, revealPotential]

/-- A whole operation sequence consumes at most the initial reveal
budget. -/
theorem runOps_reveal_budget (ops : List GalleryOp) : ∀ a : Artwork,
    revealedEventCount (runOps a ops).2 + revealPotential (runOps a ops).1
      ≤ revealPotential a := by
  induction ops with
  | nil => intro a; simp [runOps, revealedEventCount]
  | cons op ops ih =>
    intro a
    have h1 := applyOp_reveal_budget a op
    have h2 := ih (applyOp a op).1
    simp only [revealedEventCount] at h1 h2
    simp only [runOps, revealedEventCount, List.filter_append,
      List.length_append]
    omega

/-- C2: the `is_revealed` flag is monotonic — across every sequence of
view events, comment events, evaluator transitions and artwork updates,
once true it never becomes false again; and the artwork update operation
(EditArtwork's submit payload of title, description and placeholder)
never writes `is_revealed` at all, so Revealed is a terminal state. -/
theorem is_revealed_monotone (a : Artwork) (ops : List GalleryOp)
    (h : a.is_revealed = true) :
    (runOps a ops).1.is_revealed = true
  ∧ ∀ (b : Artwork) (t d : String) (p : Option String),
      (applyOp b (GalleryOp.update t d p)).1.is_revealed = b.is_revealed := by
  refine ⟨?_, fun b t d p => by simp [applyOp]⟩
  induction ops generalizing a with
  | nil => simpa [runOps] using h
  | cons op ops ih =>
    simp only [runOps]
    exact ih _ (applyOp_is_revealed_mono a op h)

/-- Witness for C2: a revealed artwork stays revealed across a view, a
comment and an update. -/
theorem is_revealed_monotone_witness :
    (runOps
      { id := 1, title := "t", description := "", image_url := "u",
        placeholder_image := none, is_revealed := true, view_count := 3,
        created_at := 0, reveal_conditions := [], comments := [] }
      [GalleryOp.view 5, GalleryOp.addComment 6 ⟨"hi"⟩,
        GalleryOp.update "t2" "d2" none]).1.is_revealed = true :=
  (is_revealed_monotone _ _ rfl).1

/-- C3: the transition path is idempotent with respect to notification —
over any operation sequence an already revealed artwork emits no
artwork_revealed notification at all, and any artwork emits at most one
over its whole lifetime. -/
theorem artwork_revealed_at_most_once (a : Artwork) (ops : List GalleryOp) :
    revealedEventCount (runOps a ops).2 ≤ if a.is_revealed then 0 else 1 := by
  have h := runOps_reveal_budget ops a
  have h' : revealedEventCount (runOps a ops).2 ≤ revealPotential a :=
    le_trans (Nat.le_add_right _ _) h
  simpa [revealPotential] using h'

/-- Counterexample for C4: the notifications socket's connect message has
type `welcome` (backend/websockets/README.md, Notification WebSocket
Messages; scripts/websocket_client_example.js lines 72-87 switch on it),
which is none of the three type values the claim allows. -/
theorem wire_welcome_counterexample :
    (WireMessage.welcome "Connected to notification service").wireType
        = "welcome"
  ∧ (WireMessage.welcome "Connected to notification service").wireType
        ∉ ["artwork_status", "artwork_revealed", "notification"] := by
  constructor
  · rfl
  · decide

/-- C4 (amended): every message placed on the wire over the two
real-time channels is a tagged JSON object whose type discriminator is
one of exactly four values — artwork_status, artwork_revealed, welcome
(notifications-socket connect greeting), or notification — and the
nested payload of a notification message is one of new_comment,
view_milestone, artwork_revealed. -/
theorem wire_message_types (m : WireMessage) :
    m.wireType ∈ ["artwork_status", "artwork_revealed", "welcome",
      "notification"]
  ∧ ∀ (msg : String) (d : NotificationData),
      m = WireMessage.notification msg d →
        d.dataType ∈ ["new_comment", "view_milestone", "artwork_revealed"] := by
  constructor
  · cases m <;> simp [WireMessage.wireType]
  · intro msg d _
    cases d <;> simp [NotificationData.dataType]

/-- Witness for C4: a new-comment notification message, as in the
websockets README example. -/
theorem wire_message_types_witness :
    (NotificationData.newComment 1 2 "commenter").dataType
      ∈ ["new_comment", "view_milestone", "artwork_revealed"] :=
  (wire_message_types
    (WireMessage.notification "New comment on your artwork"
      (NotificationData.newComment 1 2 "commenter"))).2
    "New comment on your artwork" (NotificationData.newComment 1 2 "commenter")
    rfl

/-- A condition whose type tag is unknown or whose value object is
missing fails the per-condition schema. -/
theorem conditionSchemaValid_false_of_malformed (c : RevealCondition)
    (h : c.condition_type ∉ validConditionTypes ∨ c.condition_value = none) :
    conditionSchemaValid c = false := by
  rcases h with h | h
  · simp only [validConditionTypes, List.mem_cons, List.not_mem_nil, or_false,
      not_or] at h
    simp [conditionSchemaValid, h.1, h.2.1, h.2.2]
  · simp [conditionSchemaValid, h]

/-- C6: artwork creation rejects malformed condition payloads before any
create request is issued — a submitted form whose reveal-conditions list
is empty, or contains a condition whose type is not one of time,
view_count, interactive, or contains a condition with a missing condition
value, fails validation and no create request goes out. -/
theorem upload_rejects_malformed (f : SubmittedUploadForm)
    (h : f.reveal_conditions = []
       ∨ (∃ c ∈ f.reveal_conditions, c.condition_type ∉ validConditionTypes)
       ∨ (∃ c ∈ f.reveal_conditions, c.condition_value = none)) :
    submitUpload f = none := by
  have hv : uploadSchemaValid f = false := by
    rcases h with h | ⟨c, hc, ht⟩ | ⟨c, hc, hn⟩
    · simp [uploadSchemaValid, h]
    · have hall : f.reveal_conditions.all conditionSchemaValid = false := by
        rw [Bool.eq_false_iff]
        intro hall
        rw [List.all_eq_true] at hall
        have := hall c hc
        rw [conditionSchemaValid_false_of_malformed c (Or.inl ht)] at this
        exact Bool.false_ne_true this
      simp [uploadSchemaValid, hall]
    · have hall : f.reveal_conditions.all conditionSchemaValid = false := by
        rw [Bool.eq_false_iff]
        intro hall
        rw [List.all_eq_true] at hall
        have := hall c hc
        rw [conditionSchemaValid_false_of_malformed c (Or.inr hn)] at this
        exact Bool.false_ne_true this
      simp [uploadSchemaValid, hall]
  simp [submitUpload, hv]

/-- Witness for C6: a form with an empty reveal-conditions list produces
no create request. -/
theorem upload_rejects_malformed_witness :
    submitUpload
      { title := "My piece", description := "", content_type := "image/png",
        artwork_file := some "art.png", placeholder_image := none,
        reveal_conditions := [] } = none :=
  upload_rejects_malformed _ (Or.inl rfl)

/-- Sample artwork for C7 with a second reveal condition after the
authoritative first one. -/
def artTwoConditions : Artwork :=
  { id := 7, title := "Hidden", description := "d", image_url := "u",
    placeholder_image := none, is_revealed := false, view_count := 4,
    created_at := 0,
    reveal_conditions :=
      [{ condition_type := "view_count",
         condition_value := some { count := some 10 } },
       { condition_type := "time",
         condition_value := some { reveal_at := some 99 } }],
    comments := [⟨"c1"⟩] }

/-- Sample artwork for C7: same metrics and first condition as
`artTwoConditions`, different conditions after the first. -/
def artOneCondition : Artwork :=
  { id := 7, title := "Hidden", description := "d", image_url := "u",
    placeholder_image := none, is_revealed := false, view_count := 4,
    created_at := 0,
    reveal_conditions :=
      [{ condition_type := "view_count",
         condition_value := some { count := some 10 } }],
    comments := [⟨"c1"⟩] }

/-- C7: the reveal-condition summary and the completion percentage
depend only on the first reveal condition — two artworks agreeing on
their metrics (view count, comment count, creation time), the
`is_revealed` flag and the first condition, evaluated at the same
instant, render identically, whatever the conditions after the first
are. -/
theorem dashboard_first_condition_only (a b : Artwork) (now : Int)
    (hrev : a.is_revealed = b.is_revealed)
    (hv : a.view_count = b.view_count)
    (hc : a.comments.length = b.comments.length)
    (hcr : a.created_at = b.created_at)
    (hhead : a.reveal_conditions.head? = b.reveal_conditions.head?) :
    formatRevealCondition a = formatRevealCondition b
  ∧ completionPercentage now a = completionPercentage now b := by
  constructor
  · unfold formatRevealCondition
    rw [hrev, hv, hc, hhead]
  · unfold completionPercentage
    rw [hrev, hcr, hv, hc, hhead]

/-- Witness for C7: the two sample artworks differ only after the first
condition and render identically. -/
theorem dashboard_first_condition_only_witness :
    formatRevealCondition artTwoConditions = formatRevealCondition artOneCondition
  ∧ completionPercentage 50 artTwoConditions
      = completionPercentage 50 artOneCondition :=
  dashboard_first_condition_only artTwoConditions artOneCondition 50 rfl rfl rfl
    rfl rfl

/-- With pairwise distinct artwork ids, `find` on the handled id returns
exactly the member carrying it. -/
theorem find_artwork_of_nodup (i : Nat) (d : Artwork) :
    ∀ as : List Artwork, d ∈ as → d.id = i →
      (as.map (fun a => a.id)).Nodup →
      as.find? (fun a => a.id == i) = some d := by
  intro as
  induction as with
  | nil => intro h _ _; exact absurd h (List.not_mem_nil d)
  | cons a t ih =>
    intro hmem hid hnd
    rw [List.map_cons, List.nodup_cons] at hnd
    by_cases ha : a.id = i
    · have had : d = a := by
        rcases List.mem_cons.mp hmem with h | h
        · exact h
        · exact absurd (ha ▸ hid ▸ List.mem_map_of_mem (fun a => a.id) h) hnd.1
      subst had
      exact List.find?_cons_of_pos _ (by simp [ha])
    · have hd : d ∈ t := by
        rcases List.mem_cons.mp hmem with h | h
        · exact absurd (h ▸ hid) ha
        · exact h
      rw [List.find?_cons_of_neg _ (by simp [ha])]
      exact ih hd hid hnd.2

/-- With pairwise distinct artwork ids, the list is a permutation of the
deleted member in front of the filtered list. -/
theorem perm_cons_filter_of_nodup (i : Nat) (d : Artwork) :
    ∀ as : List Artwork, d ∈ as → d.id = i →
      (as.map (fun a => a.id)).Nodup →
      as.Perm (d :: as.filter (fun a => !(a.id == i))) := by
  intro as
  induction as with
  | nil => intro h _ _; exact absurd h (List.not_mem_nil d)
  | cons a t ih =>
    intro hmem hid hnd
    rw [List.map_cons, List.nodup_cons] at hnd
    rcases List.mem_cons.mp hmem with h | h
    · subst h
      rw [List.filter_cons]
      simp only [hid, beq_self_eq_true, Bool.not_true, Bool.false_eq_true,
        if_false]
      have hft : t.filter (fun a => !(a.id == i)) = t := by
        apply List.filter_eq_self.mpr
        intro x hx
        have hxi : x.id ≠ i := by
          intro hxi
          exact hnd.1 (hid ▸ hxi ▸ List.mem_map_of_mem (fun a => a.id) hx)
        simp [hxi]
      rw [hft]
    · have hai : a.id ≠ i := by
        intro hai
        exact hnd.1 (hai ▸ hid ▸ List.mem_map_of_mem (fun a => a.id) h)
      rw [List.filter_cons, if_pos (show (!(a.id == i)) = true by simp [hai])]
      have ihh := ih h hid hnd.2
      exact (ihh.cons a).trans (List.Perm.swap d a _)

/-- The dashboard stats aggregates are invariant under permutation of
the artworks list. -/
theorem computeStats_perm {as bs : List Artwork} (h : as.Perm bs) :
    computeStats as = computeStats bs := by
  simp [computeStats, h.length_eq,
    ((h.map (fun a => a.view_count)).sum_eq),
    ((h.filter (fun a => a.is_revealed)).length_eq),
    ((h.map (fun a => a.comments.length)).sum_eq)]

/-- C9: the dashboard delete handler preserves the stats invariant —
with pairwise distinct artwork ids and current stats equal to the
aggregates of the current list, a successful delete of a present id
leaves the list filtered to the other artworks and the stats equal to
the aggregates recomputed over that remaining list. -/
theorem handleDeleteArtwork_preserves_stats (as : List Artwork) (d : Artwork)
    (i : Nat) (hmem : d ∈ as) (hid : d.id = i)
    (hnd : (as.map (fun a => a.id)).Nodup) :
    (handleDeleteArtwork as (computeStats as) i).1
        = as.filter (fun a => !(a.id == i))
  ∧ (handleDeleteArtwork as (computeStats as) i).2
        = computeStats (as.filter (fun a => !(a.id == i))) := by
  have hfind := find_artwork_of_nodup i d as hmem hid hnd
  have hperm := perm_cons_filter_of_nodup i d as hmem hid hnd
  have hstats := computeStats_perm hperm
  refine ⟨by simp [handleDeleteArtwork, hfind], ?_⟩
  simp only [handleDeleteArtwork, hfind]
  rw [hstats]
  cases hrev : d.is_revealed <;>
    simp [computeStats, List.filter_cons, hrev, Nat.add_sub_cancel_left,
      Nat.succ_sub_one]

/-- Sample dashboard artwork for the C9 witness: revealed, 5 views, 2
comments. -/
def artDelA : Artwork :=
  { id := 1, title := "A", description := "", image_url := "a.png",
    placeholder_image := none, is_revealed := true, view_count := 5,
    created_at := 0, reveal_conditions := [], comments := [⟨"x"⟩, ⟨"y"⟩] }

/-- Sample dashboard artwork for the C9 witness: hidden, 3 views, no
comments. -/
def artDelB : Artwork :=
  { id := 2, title := "B", description := "", image_url := "b.png",
    placeholder_image := none, is_revealed := false, view_count := 3,
    created_at := 0,
    reveal_conditions :=
      [{ condition_type := "view_count",
         condition_value := some { count := some 100 } }],
    comments := [] }

/-- Witness for C9: deleting artwork 1 from the two-artwork dashboard
keeps the stats equal to the recomputed aggregates. -/
theorem handleDeleteArtwork_preserves_stats_witness :
    (handleDeleteArtwork [artDelA, artDelB] (computeStats [artDelA, artDelB])
        1).1
      = [artDelA, artDelB].filter (fun a => !(a.id == 1))
  ∧ (handleDeleteArtwork [artDelA, artDelB] (computeStats [artDelA, artDelB])
        1).2
      = computeStats ([artDelA, artDelB].filter (fun a => !(a.id == 1))) :=
  handleDeleteArtwork_preserves_stats [artDelA, artDelB] artDelA 1
    (List.mem_cons_self _ _) rfl (by decide)
